import Mathlib

/-!
# Verification of the web-diary-backend image-cutout pipeline

Shallow embedding, in Lean 4, of the serverless image-cutout functions of the
repository (`Lambda_CropYOLO/lambda_python.py`, `Lambda_CropYOLO/lambda_function.py`,
`Lambda_CropSAM2/lambda_function.py`, `Lambda_CropObject/lambda_function.py`),
together with theorems settling the behavioural claims of the specification.

Modelling conventions:
* Python floats (model confidences, soft mask values) are embedded as `ℚ`.
* `numpy` uint8 values are embedded as `ℕ` (the code never wraps mod 256 on the
  paths modelled here, so no explicit `% 256` is needed).
* Images are a `width`/`height` pair plus a total pixel function; all pixel
  accesses in the Python code are in-bounds, so the function view is faithful.
* External effects (HTTP fetch, model inference, S3 calls, `uuid4`) are passed
  to the embedded handlers as explicit oracle arguments; every fallible step is
  an `Except` value, and the `try/except` boundary of each Lambda handler is the
  explicit `match` on those `Except`s.
* PIL's resampling kernels (`Image.resize` with `BILINEAR`/`NEAREST`) are taken
  as opaque function parameters and quantified universally: no claim below
  depends on the numeric values a resampling filter produces, only on where its
  output is placed.
-/

/-! ## §0 Generic list selection primitives

`np.argmax` / `torch.argmax` both document that on ties the index of the FIRST
occurrence of the maximum is returned; Python's `max` likewise keeps the first
maximal element.  `argmaxIdx` is that contract written as structural recursion,
`pyMaxBy` is the literal left fold performed by Python's `max(key=...)`. -/

/-- Index of the first occurrence of the maximum of a list (`np.argmax`,
`torch.argmax`).  Returns `0` on the empty list (numpy raises there; the
callers below never pass an empty list without checking first). -/
def argmaxIdx [LinearOrder α] : List α → Nat
  | [] => 0
  | [_] => 0
  | x :: y :: ys =>
      let j := argmaxIdx (y :: ys)
      if (y :: ys).getD j y ≤ x then 0 else j + 1

/-- Python's `max(xs, key=f)` on a non-empty list `m :: ms`: a left scan that
replaces the current best only on a strictly greater key, so the first maximal
element wins ties. -/
def pyMaxBy (f : α → β) [LinearOrder β] : α → List α → α
  | m, [] => m
  | m, x :: xs => if f m < f x then pyMaxBy f x xs else pyMaxBy f m xs

/-- Python's `value or default` on an optional string: the default replaces
both a missing and an empty (falsy) value. -/
def orDefault (v : Option String) (d : String) : String :=
  match v with
  | some x => if x = "" then d else x
  | none => d

/-! ## §1 Data model: images, pixels, S3 effects -/

/-- One RGB pixel (`uint8` channels, embedded as `ℕ`). -/
structure RGB where
  r : Nat
  g : Nat
  b : Nat
deriving DecidableEq, Repr

/-- One RGBA pixel. -/
structure RGBA where
  r : Nat
  g : Nat
  b : Nat
  a : Nat
deriving DecidableEq, Repr

/-- A decoded 3-channel image (PIL `Image` in mode `RGB`).  Pixel access is a
total function: every access the Python code performs is in bounds. -/
structure RGBImage where
  width : Nat
  height : Nat
  px : Nat → Nat → RGB

/-- A 4-channel image (PIL `Image` in mode `RGBA`). -/
structure RGBAImage where
  width : Nat
  height : Nat
  px : Nat → Nat → RGBA

/-- `img.convert("RGBA")` on an RGB image: alpha channel filled with 255. -/
def RGBImage.convertRGBA (img : RGBImage) : RGBAImage :=
  { width := img.width, height := img.height,
    px := fun x y => ⟨(img.px x y).r, (img.px x y).g, (img.px x y).b, 255⟩ }

/-- An observable S3 client call (`boto3`), recorded by the embedded handlers;
`π` is the type of uploaded bodies. -/
inductive S3Call (π : Type)
  /-- `s3.put_object(Bucket=bucket, Key=key, Body=body, ...)` -/
  | put (bucket key : String) (body : π)
  /-- `s3.generate_presigned_url("get_object", Params={...}, ExpiresIn=expiresIn)` -/
  | presign (bucket key : String) (expiresIn : Nat)
deriving DecidableEq

/-- Model of the URL string boto3 returns from `generate_presigned_url`: it
carries the bucket, the key and an `X-Amz-Expires` parameter equal to the
`ExpiresIn` argument. -/
def presignedUrl (bucket key : String) (expiresIn : Nat) : String :=
  "https://" ++ bucket ++ ".s3.amazonaws.com/" ++ key ++ "?X-Amz-Expires=" ++ toString expiresIn

/-! ## §2 `Lambda_CropYOLO/lambda_python.py` -/

namespace CropYoloPy

/-- Sum of all entries of a 2-d array: `masks.sum(dim=(1, 2))` for one mask. -/
def maskSum (m : List (List ℚ)) : ℚ := (m.map List.sum).sum

/-- The fields of `results[0]` the handler reads: `r0.masks.data` (a float
tensor `[N, H, W]`, `None` when nothing was detected) and `r0.boxes.conf`
(a float tensor `[N]`). -/
structure YoloResult where
  masks : Option (List (List (List ℚ)))
  confs : Option (List ℚ)

/-- `_pick_most_salient_instance(result)`: raises `ValueError` when masks or
boxes are `None`; otherwise returns `argmax(mask areas * confidences)`
(`torch.argmax`, first index on ties; torch raises on an empty tensor). -/
def pickMostSalientInstance (r : YoloResult) : Except String Nat :=
  match r.masks, r.confs with
  | some ms, some cs =>
      let areas := ms.map maskSum
      let scores := List.zipWith (fun a c => a * c) areas cs
      if scores.isEmpty then Except.error "argmax of an empty tensor"
      else Except.ok (argmaxIdx scores)
  | _, _ => Except.error "No masks/boxes found"

/-- The argument of `_make_rgba_cutout`: a numpy array that is either float
(values in `0..1`; `dtype != uint8`) or already 8-bit. -/
inductive NpMask
  | float (v : Nat → Nat → ℚ)
  | u8 (v : Nat → Nat → Nat)

/-- `(mask_2d > 0.5).astype(np.uint8) * 255` at one value. -/
def binarize05 (q : ℚ) : Nat := if 1/2 < q then 255 else 0

/-- The 8-bit alpha plane `_make_rgba_cutout` builds from its mask argument. -/
def NpMask.toU8 : NpMask → (Nat → Nat → Nat)
  | .float v => fun x y => binarize05 (v x y)
  | .u8 v => v

/-- `_make_rgba_cutout(img_rgb, mask_2d)`: convert the image to RGBA and
replace the alpha channel (`putalpha`) with the 8-bit mask. -/
def makeRgbaCutout (img : RGBImage) (mask : NpMask) : RGBAImage :=
  { width := img.width, height := img.height,
    px := fun x y => ⟨(img.px x y).r, (img.px x y).g, (img.px x y).b, mask.toU8 x y⟩ }

/-- View a `[H, W]` mask grid as a pixel function (row `y`, column `x`). -/
def maskAt (m : List (List ℚ)) : Nat → Nat → ℚ :=
  fun x y => (m.getD y []).getD x 0

/-- Process-wide environment configuration read at module load. -/
structure Env where
  /-- `S3_BUCKET` (required) -/
  s3Bucket : String
  /-- `S3_PREFIX`, default `"cutouts/"` -/
  s3Pfx : String
  /-- `PRESIGN_EXPIRES`, default `3600` -/
  presignExpires : Nat

/-- The invocation event. `ret` is the `"return"` field
(`event.get("return", "presigned")`). -/
structure Event where
  image_url : Option String
  key : Option String
  ret : Option String

/-- Outcomes of the external calls the handler makes, one invocation. -/
structure Oracle where
  /-- `_download_image(image_url)`: HTTP GET + `raise_for_status` + decode -/
  download : Except String RGBImage
  /-- `model.predict(img)[0]` -/
  inference : Except String YoloResult
  /-- `uuid.uuid4().hex` drawn for the auto-generated key -/
  uuidHex : String
  /-- `s3.put_object(...)` outcome -/
  putResult : Except String Unit

inductive Body
  /-- `{"bucket": .., "key": .., "url": ..}` -/
  | okUrl (bucket key url : String)
  /-- `{"error": msg}` -/
  | err (msg : String)
deriving DecidableEq

structure Response where
  statusCode : Nat
  body : Body
deriving DecidableEq

/-- The auto-generated output key `f"{S3_PREFIX}{uuid.uuid4().hex}.png"`. -/
def autoKey (s3Pfx uuidHex : String) : String := s3Pfx ++ uuidHex ++ ".png"

/-- `lambda_handler(event, context)` of `lambda_python.py`.  Every exception
raised inside the `try` block is caught by the single `except Exception`
clause and converted into a status-500 `{"error": str(e)}` response.  Returns
the response together with the S3 calls performed. -/
def lambda_handler (env : Env) (ev : Event) (o : Oracle) :
    Response × List (S3Call RGBAImage) :=
  match ev.image_url with
  | none => (⟨500, Body.err "KeyError: image_url"⟩, [])
  | some _ =>
    let outKey := match ev.key with
      | some k => if k = "" then autoKey env.s3Pfx o.uuidHex else k
      | none => autoKey env.s3Pfx o.uuidHex
    match o.download with
    | Except.error e => (⟨500, Body.err e⟩, [])
    | Except.ok img =>
      match o.inference with
      | Except.error e => (⟨500, Body.err e⟩, [])
      | Except.ok r0 =>
        match pickMostSalientInstance r0 with
        | Except.error e => (⟨500, Body.err e⟩, [])
        | Except.ok idx =>
          match r0.masks with
          | none => (⟨500, Body.err "No masks/boxes found"⟩, [])
          | some ms =>
            match ms.get? idx with
            | none => (⟨500, Body.err "IndexError"⟩, [])
            | some mask2d =>
              let cutout := makeRgbaCutout img (NpMask.float (maskAt mask2d))
              let putCall := S3Call.put env.s3Bucket outKey cutout
              match o.putResult with
              | Except.error e => (⟨500, Body.err e⟩, [putCall])
              | Except.ok _ =>
                if (ev.ret.getD "presigned") = "s3" then
                  (⟨200, Body.okUrl env.s3Bucket outKey
                      ("s3://" ++ env.s3Bucket ++ "/" ++ outKey)⟩, [putCall])
                else
                  (⟨200, Body.okUrl env.s3Bucket outKey
                      (presignedUrl env.s3Bucket outKey env.presignExpires)⟩,
                   [putCall, S3Call.presign env.s3Bucket outKey env.presignExpires])

end CropYoloPy

/-! ## §3 `Lambda_CropYOLO/lambda_function.py` -/

namespace CropYoloFn

/-- The fields of `results[0]` read by `_segment_to_rgba_png`: `r0.masks.data`
(float grids at mask resolution, `None` when nothing detected) and
`r0.boxes.conf`; `len(r0.boxes)` equals the length of `confs`. -/
structure YoloR0 where
  masks : Option (List (Nat → Nat → ℚ))
  confs : Option (List ℚ)

/-- `(alpha > 128).astype(np.uint8) * 255` at one pixel. -/
def binarize128 (v : Nat) : Nat := if 128 < v then 255 else 0

/-- The type of the PIL resampling step
`Image.fromarray((best_mask * 255).astype(np.uint8)).resize((w, h), BILINEAR)`:
given the selected mask and the target width/height it yields the soft 8-bit
alpha plane.  Treated as an arbitrary parameter (see the header note). -/
def Resample : Type := (Nat → Nat → ℚ) → Nat → Nat → (Nat → Nat → Nat)

/-- `_segment_to_rgba_png(image_bytes)` after the decode step: if masks or
boxes are `None` or no boxes were detected, re-encode the input fully opaque;
otherwise pick the instance with maximal confidence (`np.argmax(scores)`),
resize its mask to the image size, binarize at `> 128` and attach it as the
alpha channel over the unchanged RGB pixels. -/
def segmentToRgbaPng (resample : Resample) (img : RGBImage) (r0 : YoloR0) :
    Except String RGBAImage :=
  match r0.masks, r0.confs with
  | some ms, some cs =>
    if cs.length = 0 then Except.ok img.convertRGBA
    else
      let bestIdx := argmaxIdx cs
      match ms.get? bestIdx with
      | none => Except.error "IndexError"
      | some bm =>
        let soft := resample bm img.width img.height
        Except.ok
          { width := img.width, height := img.height,
            px := fun x y =>
              ⟨(img.px x y).r, (img.px x y).g, (img.px x y).b, binarize128 (soft x y)⟩ }
  | _, _ => Except.ok img.convertRGBA

/-- Process-wide environment configuration read at module load. -/
structure Env where
  /-- `PRESIGN_EXPIRES`, default `3600` — read at module load but never used -/
  presignExpires : Nat
  /-- `BUCKET_NAME`, default `""` -/
  defaultBucket : String

/-- `_put_to_s3(png_bytes, bucket, key)`: upload, then presign a GET URL.
The presign call hardcodes `ExpiresIn=3600`; `env.presignExpires`
(`PRESIGN_EXPIRES`) is not consulted. -/
def putToS3 (env : Env) (pngBody : RGBAImage) (bucket key : String) :
    String × List (S3Call RGBAImage) :=
  (presignedUrl bucket key 3600,
   [S3Call.put bucket key pngBody, S3Call.presign bucket key 3600])

/-- The only event data the handler consumes besides what
`_read_request_bytes` extracts: the `x-s3-bucket` header. -/
structure Event where
  xS3Bucket : Option String

/-- Outcomes of the external / fallible steps, one invocation. -/
structure Oracle where
  /-- `_read_request_bytes(event)`: yields the optional `s3Key`; raises on a
  missing `imageBase64` field or an undecodable body -/
  readRequest : Except String (Option String)
  /-- `Image.open(io.BytesIO(image_bytes)).convert("RGB")` -/
  decode : Except String RGBImage
  /-- `model(np_img, verbose=False)[0]` -/
  inference : Except String YoloR0
  /-- `s3.put_object(...)` outcome inside `_put_to_s3` -/
  putResult : Except String Unit

inductive Body
  /-- binary PNG body, base64-encoded by the Lambda proxy contract -/
  | png (img : RGBAImage)
  /-- `{"error": msg}` -/
  | errJson (msg : String)

structure Response where
  statusCode : Nat
  isBase64Encoded : Bool
  /-- the `X-S3-URL` response header, when a store happened -/
  xS3Url : Option String
  body : Body

/-- `lambda_handler(event, context)` of `Lambda_CropYOLO/lambda_function.py`.
All exceptions raised inside the `try` block are converted by the single
`except Exception` clause into a status-400 `{"error": str(e)}` response. -/
def lambda_handler (env : Env) (ev : Event) (resample : Resample) (o : Oracle) :
    Response × List (S3Call RGBAImage) :=
  match o.readRequest with
  | Except.error e => (⟨400, false, none, Body.errJson e⟩, [])
  | Except.ok s3Key =>
    let bucket := orDefault ev.xS3Bucket env.defaultBucket
    match o.decode with
    | Except.error e => (⟨400, false, none, Body.errJson e⟩, [])
    | Except.ok img =>
      match o.inference with
      | Except.error e => (⟨400, false, none, Body.errJson e⟩, [])
      | Except.ok r0 =>
        match segmentToRgbaPng resample img r0 with
        | Except.error e => (⟨400, false, none, Body.errJson e⟩, [])
        | Except.ok outPng =>
          if (s3Key.getD "") = "" then
            (⟨200, true, none, Body.png outPng⟩, [])
          else
            let k := s3Key.getD ""
            if bucket = "" then
              (⟨400, false, none,
                Body.errJson "s3Key was provided but BUCKET_NAME or x-s3-bucket is missing"⟩, [])
            else
              match o.putResult with
              | Except.error e =>
                  (⟨400, false, none, Body.errJson e⟩, [S3Call.put bucket k outPng])
              | Except.ok _ =>
                  let r := putToS3 env outPng bucket k
                  (⟨200, true, some r.1, Body.png outPng⟩, r.2)

end CropYoloFn

/-! ## §4 `Lambda_CropSAM2/lambda_function.py` -/

namespace CropSam2

/-- One entry of the `SAM2AutomaticMaskGenerator` output list: a dict that
usually carries `'segmentation'` (an `(H, W)` bool array) and `'area'`. -/
structure SamMask where
  segmentation : Option (List (List Bool))
  area : Option Nat
deriving DecidableEq

/-- `area_of(m)` inside `_pick_largest_mask`: prefer the recorded `'area'`,
fall back to `np.sum(segmentation)`, then to `0`. -/
def area_of (m : SamMask) : Nat :=
  match m.area with
  | some a => a
  | none =>
    match m.segmentation with
    | some seg => (seg.map (fun row => row.countP (· = true))).sum
    | none => 0

/-- `_pick_largest_mask(masks)`: raises `ValueError` on an empty list,
otherwise takes `max(masks, key=area_of)` (Python `max`: first maximal
element) and returns its `'segmentation'`, raising when that is missing. -/
def pickLargestMask (masks : List SamMask) : Except String (List (List Bool)) :=
  match masks with
  | [] => Except.error "No masks generated. Try another image or increase memory/timeout."
  | m :: ms =>
    let largest := pyMaxBy area_of m ms
    match largest.segmentation with
    | none => Except.error "Mask dict missing 'segmentation'."
    | some seg => Except.ok seg

/-- The type of the PIL nearest-neighbour resampling step
`Image.fromarray((mask01 * 255).astype(np.uint8)).resize((w, h), NEAREST)`:
given the 0/1 mask grid and target width/height it yields the resized 8-bit
plane.  Treated as an arbitrary parameter (see the header note). -/
def ResampleNearest : Type := List (List Bool) → Nat → Nat → (Nat → Nat → Nat)

/-- `_apply_alpha_cutout(img_rgb, mask01)`: when the mask grid already has the
image's shape, alpha is `mask01 * 255`; otherwise the mask is resized to
`(w, h)` with nearest-neighbour first.  The RGBA result is `np.array` of
`img.convert("RGBA")` with column 3 overwritten by that alpha plane. -/
def applyAlphaCutout (resample : ResampleNearest) (img : RGBImage)
    (mask01 : List (List Bool)) : RGBAImage :=
  let mh := mask01.length
  let mw := (mask01.headD []).length
  let alpha : Nat → Nat → Nat :=
    if mh ≠ img.height ∨ mw ≠ img.width then
      resample mask01 img.width img.height
    else
      fun x y => if (mask01.getD y []).getD x false then 255 else 0
  { width := img.width, height := img.height,
    px := fun x y => ⟨(img.px x y).r, (img.px x y).g, (img.px x y).b, alpha x y⟩ }

/-- Process-wide environment configuration read at module load. -/
structure Env where
  /-- `OUTPUT_BUCKET`, default `""` -/
  defaultBucket : String
  /-- `OUTPUT_PREFIX`, default `"cutouts/"` -/
  defaultPfx : String

/-- The invocation event. -/
structure Event where
  image_url : Option String
  bucket : Option String
  pfx : Option String
  /-- `bool(event.get("return_presigned", False))` -/
  return_presigned : Bool
  /-- `int(event.get("presign_expires", 3600))`, already parsed -/
  presign_expires : Option Nat

/-- Outcomes of the external calls, one invocation. -/
structure Oracle where
  /-- `_load_model()`: raises `FileNotFoundError` when the checkpoint is absent -/
  loadModel : Except String Unit
  /-- `_fetch_image(image_url)`: HTTP GET + `raise_for_status` + decode -/
  fetch : Except String RGBImage
  /-- `_mask_generator.generate(img_np)` -/
  generate : Except String (List SamMask)
  /-- `uuid.uuid4().hex` drawn for the output key -/
  uuidHex : String
  /-- `s3.put_object(...)` outcome inside `_put_png_to_s3` -/
  putResult : Except String Unit

inductive Body
  /-- `{"s3_url", "bucket", "key"}` plus `"presigned_url"` when requested -/
  | ok (s3_url bucket key : String) (presigned_url : Option String)
  /-- `{"error": msg}` -/
  | err (msg : String)
deriving DecidableEq

structure Response where
  statusCode : Nat
  body : Body
deriving DecidableEq

/-- `lambda_handler(event, context)` of `Lambda_CropSAM2/lambda_function.py`.
Missing `image_url`/`bucket` return 400 directly; every exception raised in
the `try` block — including the `ValueError` of `_pick_largest_mask` on an
empty mask list — is caught by `except Exception` and becomes a status-500
`{"error": str(e)}` response. -/
def lambda_handler (env : Env) (ev : Event) (resample : ResampleNearest)
    (o : Oracle) : Response × List (S3Call RGBAImage) :=
  match o.loadModel with
  | Except.error e => (⟨500, Body.err e⟩, [])
  | Except.ok _ =>
    if (ev.image_url.getD "") = "" then
      (⟨400, Body.err "image_url is required"⟩, [])
    else
      let bucket := orDefault ev.bucket env.defaultBucket
      if bucket = "" then
        (⟨400, Body.err "bucket is required (or set OUTPUT_BUCKET env)"⟩, [])
      else
        let pfx0 := orDefault ev.pfx env.defaultPfx
        let pfx := if pfx0.data.getLast? = some '/' then pfx0 else pfx0 ++ "/"
        let expires := ev.presign_expires.getD 3600
        match o.fetch with
        | Except.error e => (⟨500, Body.err e⟩, [])
        | Except.ok img =>
          match o.generate with
          | Except.error e => (⟨500, Body.err e⟩, [])
          | Except.ok masks =>
            match pickLargestMask masks with
            | Except.error e => (⟨500, Body.err e⟩, [])
            | Except.ok seg =>
              let cutout := applyAlphaCutout resample img seg
              let outKey := pfx ++ o.uuidHex ++ ".png"
              let putCall := S3Call.put (π := RGBAImage) bucket outKey cutout
              match o.putResult with
              | Except.error e => (⟨500, Body.err e⟩, [putCall])
              | Except.ok _ =>
                let s3Url := "s3://" ++ bucket ++ "/" ++ outKey
                if ev.return_presigned then
                  (⟨200, Body.ok s3Url bucket outKey
                      (some (presignedUrl bucket outKey expires))⟩,
                   [putCall, S3Call.presign bucket outKey expires])
                else
                  (⟨200, Body.ok s3Url bucket outKey none⟩, [putCall])

end CropSam2

/-! ## §5 SHA-256 (FIPS 180-4), the embedding of `hashlib.sha256(...).hexdigest()`
used by `Lambda_CropObject`'s key derivation. -/

namespace SHA256

/-- 2^32 -/
def M32 : Nat := 4294967296

def add32 (a b : Nat) : Nat := (a + b) % M32

/-- right-rotation of a 32-bit word -/
def rotr (n x : Nat) : Nat := (x / 2 ^ n + x % 2 ^ n * 2 ^ (32 - n)) % M32

def shr (n x : Nat) : Nat := x / 2 ^ n

def xor32 (a b : Nat) : Nat := Nat.xor a b

def bigSigma0 (x : Nat) : Nat := xor32 (xor32 (rotr 2 x) (rotr 13 x)) (rotr 22 x)
def bigSigma1 (x : Nat) : Nat := xor32 (xor32 (rotr 6 x) (rotr 11 x)) (rotr 25 x)
def smallSigma0 (x : Nat) : Nat := xor32 (xor32 (rotr 7 x) (rotr 18 x)) (shr 3 x)
def smallSigma1 (x : Nat) : Nat := xor32 (xor32 (rotr 17 x) (rotr 19 x)) (shr 10 x)

def ch (e f g : Nat) : Nat := xor32 (Nat.land e f) (Nat.land (4294967295 - e) g)
def maj (a b c : Nat) : Nat := xor32 (xor32 (Nat.land a b) (Nat.land a c)) (Nat.land b c)

def K : List Nat :=
  [1116352408, 1899447441, 3049323471, 3921009573, 961987163, 1508970993,
   2453635748, 2870763221, 3624381080, 310598401, 607225278, 1426881987,
   1925078388, 2162078206, 2614888103, 3248222580, 3835390401, 4022224774,
   264347078, 604807628, 770255983, 1249150122, 1555081692, 1996064986,
   2554220882, 2821834349, 2952996808, 3210313671, 3336571891, 3584528711,
   113926993, 338241895, 666307205, 773529912, 1294757372, 1396182291,
   1695183700, 1986661051, 2177026350, 2456956037, 2730485921, 2820302411,
   3259730800, 3345764771, 3516065817, 3600352804, 4094571909, 275423344,
   430227734, 506948616, 659060556, 883997877, 958139571, 1322822218,
   1537002063, 1747873779, 1955562222, 2024104815, 2227730452, 2361852424,
   2428436474, 2756734187, 3204031479, 3329325298]

def H0 : List Nat :=
  [1779033703, 3144134277, 1013904242, 2773480762,
   1359893119, 2600822924, 528734635, 1541459225]

/-- message padding: append `0x80`, zeros, and the 8-byte big-endian bit length. -/
def pad (msg : List Nat) : List Nat :=
  let l := msg.length
  let k := (119 - l % 64) % 64
  let bitLen := 8 * l
  msg ++ [0x80] ++ List.replicate k 0 ++
    [bitLen / 2 ^ 56 % 256, bitLen / 2 ^ 48 % 256, bitLen / 2 ^ 40 % 256, bitLen / 2 ^ 32 % 256,
     bitLen / 2 ^ 24 % 256, bitLen / 2 ^ 16 % 256, bitLen / 2 ^ 8 % 256, bitLen % 256]

/-- 4 big-endian bytes to one 32-bit word while splitting a 64-byte block. -/
def toWords : List Nat → List Nat
  | b0 :: b1 :: b2 :: b3 :: rest =>
      (b0 * 2 ^ 24 + b1 * 2 ^ 16 + b2 * 2 ^ 8 + b3) :: toWords rest
  | _ => []

def chunksAux : Nat → List Nat → List (List Nat)
  | 0, _ => []
  | fuel + 1, l => if l.isEmpty then [] else l.take 64 :: chunksAux fuel (l.drop 64)

/-- split into 64-byte blocks; the fuel (one unit per block suffices) makes the
recursion structural. -/
def chunks64 (l : List Nat) : List (List Nat) := chunksAux l.length l

/-- extend the 16 message words to 64; `wrev` holds the words newest-first. -/
def extendW (wrev : List Nat) : Nat → List Nat
  | 0 => wrev
  | n + 1 =>
      let w := add32 (add32 (smallSigma1 (wrev.getD 1 0)) (wrev.getD 6 0))
                     (add32 (smallSigma0 (wrev.getD 14 0)) (wrev.getD 15 0))
      extendW (w :: wrev) n

structure St where
  a : Nat
  b : Nat
  c : Nat
  d : Nat
  e : Nat
  f : Nat
  g : Nat
  h : Nat

def round (s : St) (kt wt : Nat) : St :=
  let t1 := add32 (add32 (add32 s.h (bigSigma1 s.e)) (add32 (ch s.e s.f s.g) kt)) wt
  let t2 := add32 (bigSigma0 s.a) (maj s.a s.b s.c)
  ⟨add32 t1 t2, s.a, s.b, s.c, add32 s.d t1, s.e, s.f, s.g⟩

def compress (hs : List Nat) (block : List Nat) : List Nat :=
  let w := (extendW (toWords block).reverse 48).reverse
  let s0 : St := ⟨hs.getD 0 0, hs.getD 1 0, hs.getD 2 0, hs.getD 3 0,
                  hs.getD 4 0, hs.getD 5 0, hs.getD 6 0, hs.getD 7 0⟩
  let s := (List.zip K w).foldl (fun s p => round s p.1 p.2) s0
  [add32 (hs.getD 0 0) s.a, add32 (hs.getD 1 0) s.b, add32 (hs.getD 2 0) s.c,
   add32 (hs.getD 3 0) s.d, add32 (hs.getD 4 0) s.e, add32 (hs.getD 5 0) s.f,
   add32 (hs.getD 6 0) s.g, add32 (hs.getD 7 0) s.h]

/-- the lowercase hex digit for a value below 16 (`hexdigest` alphabet) -/
def hexDigit (n : Nat) : Char :=
  if n < 10 then Char.ofNat (48 + n) else Char.ofNat (87 + n)

def toHex8 (w : Nat) : List Char :=
  (List.range 8).map (fun i => hexDigit (w / 16 ^ (7 - i) % 16))

/-- `hashlib.sha256(msg).hexdigest()` on a byte list. -/
def sha256hex (msg : List Nat) : String :=
  let hs := (chunks64 (pad msg)).foldl compress H0
  String.mk (hs.map toHex8).flatten

/-- UTF-8 encoding of one Unicode code point. -/
def utf8Char (c : Nat) : List Nat :=
  if c < 128 then [c]
  else if c < 2048 then [192 + c / 64, 128 + c % 64]
  else if c < 65536 then [224 + c / 4096, 128 + c / 64 % 64, 128 + c % 64]
  else [240 + c / 262144, 128 + c / 4096 % 64, 128 + c / 64 % 64, 128 + c % 64]

/-- `s.encode("utf-8")` as a byte list. -/
def utf8 (s : String) : List Nat := (s.data.map (fun c => utf8Char c.toNat)).flatten

end SHA256

/-! ## §6 `Lambda_CropObject/lambda_function.py` -/

namespace CropObject

/-- Python exceptions the handler can see, with the hierarchy fact the
`except` clauses depend on: `requests.exceptions.HTTPError` (raised by
`raise_for_status` on a non-2xx response) is the only kind matched by
`except requests.HTTPError`; `ConnectionError` (connection refused / network
failure) is NOT a subclass of `HTTPError`, and decode failures surface from
inside `rembg` as ordinary exceptions. -/
inductive PyExc
  | httpError (msg : String)
  | connectionError (msg : String)
  | decodeError (msg : String)
  | storageError (msg : String)
  | otherError (msg : String)
deriving DecidableEq

/-- Which exceptions the `except requests.HTTPError` clause catches. -/
def PyExc.isHTTPError : PyExc → Bool
  | .httpError _ => true
  | _ => false

/-- `str(e)` -/
def PyExc.msg : PyExc → String
  | .httpError m => m
  | .connectionError m => m
  | .decodeError m => m
  | .storageError m => m
  | .otherError m => m

/-- percent-decoding (`urllib.parse.unquote`) on a character list; malformed
escapes are passed through unchanged. -/
def unquoteChars : List Char → List Char
  | '%' :: a :: b :: rest =>
      if a.isDigit || ('a' ≤ a && a ≤ 'f') || ('A' ≤ a && a ≤ 'F') then
        if b.isDigit || ('a' ≤ b && b ≤ 'f') || ('A' ≤ b && b ≤ 'F') then
          Char.ofNat (16 * hexCharVal a + hexCharVal b) :: unquoteChars rest
        else '%' :: unquoteChars (a :: b :: rest)
      else '%' :: unquoteChars (a :: b :: rest)
  | c :: rest => c :: unquoteChars rest
  | [] => []
where
  hexCharVal (c : Char) : Nat :=
    if c.isDigit then c.toNat - 48
    else if 'a' ≤ c && c ≤ 'f' then c.toNat - 87
    else c.toNat - 55

def unquote (s : String) : String := String.mk (unquoteChars s.data)

/-- The characters after the first `"://"`, or `none` when there is none. -/
def afterScheme : List Char → Option (List Char)
  | ':' :: '/' :: '/' :: rest => some rest
  | _ :: rest => afterScheme rest
  | [] => none

/-- `urlparse(url).path` for the URL shapes this handler receives: the part
after the `scheme://netloc` authority, truncated at the query or fragment. -/
def urlPath (url : String) : String :=
  match afterScheme url.data with
  | none => String.mk (url.data.takeWhile (fun c => !(c == '?' || c == '#')))
  | some rest =>
      let pathq := rest.dropWhile (fun c => !(c == '/'))
      String.mk (pathq.takeWhile (fun c => !(c == '?' || c == '#')))

/-- `os.path.basename`: the part after the last `/`. -/
def basename (p : String) : String :=
  String.mk (p.data.reverse.takeWhile (fun c => !(c == '/'))).reverse

/-- `_safe_basename_from_url(url)`: basename of the unquoted path, defaulting
to `"image"` when empty, with the extension split off by `rpartition(".")`. -/
def safeBasenameFromUrl (url : String) : String :=
  let base := basename (unquote (urlPath url))
  let base := if base = "" then "image" else base
  if base.data.contains '.' then
    String.mk ((base.data.reverse.dropWhile (fun c => !(c == '.'))).drop 1).reverse
  else base

/-- `_make_output_key(image_url)`: `OUTPUT_PREFIX`, the safe basename, a dash,
the first 12 hex digits of `sha256(image_url)`, and `".png"`.  A pure function
of the URL: no random or per-invocation component. -/
def makeOutputKey (outputPfx url : String) : String :=
  outputPfx ++ safeBasenameFromUrl url ++ "-" ++
    String.mk ((SHA256.sha256hex (SHA256.utf8 url)).data.take 12) ++ ".png"

/-- Process-wide environment configuration read at module load. -/
structure Env where
  /-- `OUTPUT_BUCKET` (required) -/
  outputBucket : String
  /-- `OUTPUT_PREFIX`, default `"removed/"` -/
  outputPfx : String
  /-- `PUBLIC_BASE_URL`, default `""` -/
  publicBaseUrl : String
  /-- `RETURN_PRESIGNED == "1"` -/
  returnPresigned : Bool
  /-- `PRESIGNED_EXPIRES`, default `3600` -/
  presignedExpires : Nat

/-- The payload after `_parse_payload`. -/
structure Payload where
  image_url : Option String

/-- Outcomes of the external / fallible steps, one invocation; `β` is the
(opaque) type of the PNG byte strings `rembg.remove` produces. -/
structure Oracle (β : Type) where
  /-- `_parse_payload(event)`: raises on base64/JSON errors -/
  parse : Except PyExc Payload
  /-- `_download_image(image_url)`: `requests.get` + `raise_for_status` -/
  download : Except PyExc Unit
  /-- `remove(img_bytes)`: background removal, raises on undecodable bytes -/
  rembg : Except PyExc β
  /-- `s3.put_object(...)` outcome inside `_put_png` -/
  putResult : Except PyExc Unit

inductive Body
  /-- `{"result_bucket", "result_key", "result_url"}` -/
  | ok (result_bucket result_key result_url : String)
  /-- `{"error": msg}` -/
  | errSimple (msg : String)
  /-- `{"error": kind, "detail": detail}` -/
  | err (kind detail : String)
deriving DecidableEq

structure Response where
  statusCode : Nat
  body : Body
deriving DecidableEq

/-- `https://{bucket}.s3.amazonaws.com/{key}` -/
def s3PublicUrl (bucket key : String) : String :=
  "https://" ++ bucket ++ ".s3.amazonaws.com/" ++ key

/-- `PUBLIC_BASE_URL.rstrip('/') + '/' + key` when a CDN base is configured,
else the direct public S3 URL. -/
def cloudfrontOrPublicUrl (env : Env) (key : String) : String :=
  if env.publicBaseUrl = "" then s3PublicUrl env.outputBucket key
  else String.mk (env.publicBaseUrl.data.reverse.dropWhile (fun c => c == '/')).reverse
        ++ "/" ++ key

/-- The two `except` clauses at the invocation boundary:
`except requests.HTTPError` → 502 `failed_to_fetch_image`,
`except Exception` → 500 `internal_error`. -/
def excResponse (e : PyExc) : Response :=
  if e.isHTTPError then ⟨502, Body.err "failed_to_fetch_image" e.msg⟩
  else ⟨500, Body.err "internal_error" e.msg⟩

/-- `lambda_handler(event, context)` of `Lambda_CropObject/lambda_function.py`.
Returns the response and the S3 calls performed. -/
def lambda_handler {β : Type} (env : Env) (o : Oracle β) :
    Response × List (S3Call β) :=
  match o.parse with
  | Except.error e => (excResponse e, [])
  | Except.ok payload =>
    if (payload.image_url.getD "") = "" then
      (⟨400, Body.errSimple "image_url is required"⟩, [])
    else
      let url := payload.image_url.getD ""
      match o.download with
      | Except.error e => (excResponse e, [])
      | Except.ok _ =>
        match o.rembg with
        | Except.error e => (excResponse e, [])
        | Except.ok png =>
          let outKey := makeOutputKey env.outputPfx url
          let putCall := S3Call.put (π := β) env.outputBucket outKey png
          match o.putResult with
          | Except.error e => (excResponse e, [putCall])
          | Except.ok _ =>
            if env.returnPresigned then
              (⟨200, Body.ok env.outputBucket outKey
                  (presignedUrl env.outputBucket outKey env.presignedExpires)⟩,
               [putCall, S3Call.presign env.outputBucket outKey env.presignedExpires])
            else
              (⟨200, Body.ok env.outputBucket outKey (cloudfrontOrPublicUrl env outKey)⟩,
               [putCall])

end CropObject


/-! ### The spec's named selection policy (for claim C1)

The repository's `_pick_most_salient_instance` scores with `area * confidence`
directly; the specification states the rule with an explicit confidence floor.
The definition below follows the spec's words, to be compared with the
source-derived selector. -/

/-- Modelled from the spec: `score(mask) = area(mask) * max(confidence(mask), eps)`
with `eps` a small positive floor, winner = first index of the maximal score. -/
def specSalienceSelect (eps : ℚ) (areas confs : List ℚ) : Nat :=
  argmaxIdx (List.zipWith (fun a c => a * max c eps) areas confs)

/-! ### Concrete fixtures used by witnesses and counterexamples -/

/-- a 2×2 image with constant pixel (10, 20, 30) -/
def img1 : RGBImage := ⟨2, 2, fun _ _ => ⟨10, 20, 30⟩⟩

/-- a trivial nearest-neighbour resampling instance -/
def rsSamZero : CropSam2.ResampleNearest := fun _ _ _ _ _ => 0

/-- a trivial bilinear resampling instance -/
def rsFnZero : CropYoloFn.Resample := fun _ _ _ _ _ => 0

/-- one-row masks of areas 10, 50 and 30 (rows of ones) -/
def mask10 : List (List ℚ) := [List.replicate 10 1]

def mask50 : List (List ℚ) := [List.replicate 50 1]

def mask30 : List (List ℚ) := [List.replicate 30 1]

/-- detector output with areas {10, 50, 30} and confidences {0.9, 0.1, 0.9} -/
def yoloR1 : CropYoloPy.YoloResult :=
  ⟨some [mask10, mask50, mask30], some [9/10, 1/10, 9/10]⟩

def samEnv1 : CropSam2.Env := ⟨"", "cutouts/"⟩

def samEv1 : CropSam2.Event := ⟨some "https://example.com/cat.jpg", some "bkt", none, false, none⟩

/-- invocation whose mask generator returns the empty list -/
def samOracleEmpty : CropSam2.Oracle := ⟨Except.ok (), Except.ok img1, Except.ok [], "u1", Except.ok ()⟩

/-- invocation that finds a mask but whose storage write raises -/
def samOracleStorageFail : CropSam2.Oracle :=
  ⟨Except.ok (), Except.ok img1, Except.ok [⟨some [[true]], some 1⟩], "u1",
   Except.error "An error occurred calling the PutObject operation"⟩

def objEnv1 : CropObject.Env := ⟨"outbkt", "removed/", "", false, 3600⟩

/-- first run on `cat.png`; the rembg output blob is tagged `1` -/
def objOracleA : CropObject.Oracle Nat :=
  ⟨Except.ok ⟨some "https://example.com/cat.png"⟩, Except.ok (), Except.ok 1, Except.ok ()⟩

/-- an independent re-run on the same URL; the rembg output blob is tagged `2` -/
def objOracleB : CropObject.Oracle Nat :=
  ⟨Except.ok ⟨some "https://example.com/cat.png"⟩, Except.ok (), Except.ok 2, Except.ok ()⟩

/-- invocation whose HTTP GET fails at connection level (connection refused) -/
def objOracleConnRefused : CropObject.Oracle Nat :=
  ⟨Except.ok ⟨some "https://example.com/cat.png"⟩,
   Except.error (CropObject.PyExc.connectionError "connection refused"), Except.ok 0, Except.ok ()⟩

/-- invocation whose fetch succeeds but whose bytes are not a decodable image -/
def objOracleBadBytes : CropObject.Oracle Nat :=
  ⟨Except.ok ⟨some "https://example.com/cat.png"⟩, Except.ok (),
   Except.error (CropObject.PyExc.decodeError "cannot identify image file"), Except.ok ()⟩

/-- invocation whose fetch got a non-2xx HTTP status (raise_for_status) -/
def objOracleHttp404 : CropObject.Oracle Nat :=
  ⟨Except.ok ⟨some "https://example.com/cat.png"⟩,
   Except.error (CropObject.PyExc.httpError "404 Client Error: Not Found"), Except.ok 0, Except.ok ()⟩

def fnEnv1 : CropYoloFn.Env := ⟨3600, ""⟩

def fnEv1 : CropYoloFn.Event := ⟨none⟩

/-- detector result with no masks and no boxes -/
def fnR0None : CropYoloFn.YoloR0 := ⟨none, none⟩

/-- invocation of the CropYOLO proxy variant in which the detector found nothing -/
def fnOracleNoDet : CropYoloFn.Oracle :=
  ⟨Except.ok none, Except.ok img1, Except.ok fnR0None, Except.ok ()⟩

/-- a no-detection invocation that DOES request a storage write
(`s3Key = "out/key.png"`) while neither `BUCKET_NAME` nor `x-s3-bucket` is
configured -/
def fnOracleNoDetStore : CropYoloFn.Oracle :=
  ⟨Except.ok (some "out/key.png"), Except.ok img1, Except.ok fnR0None, Except.ok ()⟩

/-- two masks with tied area 4; distinct segmentations to tell them apart -/
def samTie1 : CropSam2.SamMask := ⟨some [[true]], some 4⟩

def samTie2 : CropSam2.SamMask := ⟨some [[false]], some 4⟩

/-! ## §7 Properties of the selection primitives -/

theorem argmaxIdx_cons₂ [LinearOrder α] (x y : α) (ys : List α) :
    argmaxIdx (x :: y :: ys) =
      if (y :: ys).getD (argmaxIdx (y :: ys)) y ≤ x then 0
      else argmaxIdx (y :: ys) + 1 := rfl

theorem argmaxIdx_lt_length [LinearOrder α] (l : List α) (h : l ≠ []) :
    argmaxIdx l < l.length := by
  match l with
  | [_] => simp [argmaxIdx]
  | x :: y :: ys =>
      have ih := argmaxIdx_lt_length (y :: ys) (by simp)
      rw [argmaxIdx_cons₂]
      by_cases hc : (y :: ys).getD (argmaxIdx (y :: ys)) y ≤ x
      · rw [if_pos hc]; simp
      · rw [if_neg hc]; simpa using Nat.succ_lt_succ ih

/-- The default value of `getD` at an in-bounds index is irrelevant. -/
theorem getD_indep [Inhabited α] (l : List α) (i : Nat) (hi : i < l.length) (d d' : α) :
    l.getD i d = l.getD i d' := by
  rw [List.getD_eq_getElem?_getD, List.getD_eq_getElem?_getD, List.getElem?_eq_getElem hi]
  simp

theorem argmaxIdx_getD_max [LinearOrder α] [Inhabited α] (l : List α) (d : α) (h : l ≠ []) :
    ∀ j, j < l.length → l.getD j d ≤ l.getD (argmaxIdx l) d := by
  match l with
  | [x] =>
      intro j hj
      have hj0 : j = 0 := by simpa using hj
      subst hj0
      simp [argmaxIdx]
  | x :: y :: ys =>
      intro j hj
      have ih := argmaxIdx_getD_max (y :: ys) d (by simp)
      have hlt := argmaxIdx_lt_length (y :: ys) (by simp)
      have h2 : (y :: ys).getD (argmaxIdx (y :: ys)) d = (y :: ys).getD (argmaxIdx (y :: ys)) y :=
        getD_indep _ _ hlt d y
      rw [argmaxIdx_cons₂]
      by_cases hc : (y :: ys).getD (argmaxIdx (y :: ys)) y ≤ x
      · rw [if_pos hc]
        match j with
        | 0 => simp
        | j + 1 =>
            have hj' : j < (y :: ys).length := by simpa using Nat.lt_of_succ_lt_succ hj
            have h1 : (y :: ys).getD j d ≤ (y :: ys).getD (argmaxIdx (y :: ys)) d := ih j hj'
            simp only [List.getD_cons_succ, List.getD_cons_zero]
            calc (y :: ys).getD j d ≤ (y :: ys).getD (argmaxIdx (y :: ys)) d := h1
              _ = (y :: ys).getD (argmaxIdx (y :: ys)) y := h2
              _ ≤ x := hc
      · rw [if_neg hc]
        push_neg at hc
        match j with
        | 0 =>
            simp only [List.getD_cons_zero, List.getD_cons_succ]
            exact le_of_lt (lt_of_lt_of_eq hc h2.symm)
        | j + 1 =>
            have hj' : j < (y :: ys).length := by simpa using Nat.lt_of_succ_lt_succ hj
            simpa using ih j hj'

/-- Python `max(key=f)` picks an element attaining the maximum key, located at
the first index among the tied maxima. -/
theorem pyMaxBy_spec [LinearOrder β] (f : α → β) (d : α) :
    ∀ (xs : List α) (m : α), ∃ i, i < (m :: xs).length ∧
      pyMaxBy f m xs = (m :: xs).getD i d ∧
      (∀ j, j < (m :: xs).length → f ((m :: xs).getD j d) ≤ f (pyMaxBy f m xs)) ∧
      (∀ j, j < i → f ((m :: xs).getD j d) < f (pyMaxBy f m xs)) := by
  intro xs
  induction xs with
  | nil =>
      intro m
      refine ⟨0, by simp, by simp [pyMaxBy], ?_, by omega⟩
      intro j hj
      have hj0 : j = 0 := by simpa using hj
      subst hj0
      simp [pyMaxBy]
  | cons x xs' ih =>
      intro m
      by_cases hc : f m < f x
      · obtain ⟨i', hi', heq, hmax, hfirst⟩ := ih x
        have hrw : pyMaxBy f m (x :: xs') = pyMaxBy f x xs' := by simp [pyMaxBy, hc]
        refine ⟨i' + 1, by simpa using Nat.succ_lt_succ hi', by simpa [hrw] using heq, ?_, ?_⟩
        · intro j hj
          rw [hrw]
          match j with
          | 0 =>
              have h0 : f x ≤ f (pyMaxBy f x xs') := by
                have := hmax 0 (by simp)
                simpa using this
              simpa using le_of_lt (lt_of_lt_of_le hc h0)
          | j + 1 =>
              have hj' : j < (x :: xs').length := by simpa using Nat.lt_of_succ_lt_succ hj
              simpa using hmax j hj'
        · intro j hj
          rw [hrw]
          match j with
          | 0 =>
              have h0 : f x ≤ f (pyMaxBy f x xs') := by
                have := hmax 0 (by simp)
                simpa using this
              simpa using lt_of_lt_of_le hc h0
          | j + 1 =>
              have hj' : j < i' := Nat.lt_of_succ_lt_succ hj
              simpa using hfirst j hj'
      · obtain ⟨i', hi', heq, hmax, hfirst⟩ := ih m
        have hxm : f x ≤ f m := not_lt.mp hc
        have hrw : pyMaxBy f m (x :: xs') = pyMaxBy f m xs' := by simp [pyMaxBy, hc]
        have hm_le : f m ≤ f (pyMaxBy f m xs') := by
          have := hmax 0 (by simp)
          simpa using this
        match i' with
        | 0 =>
            refine ⟨0, by simp, ?_, ?_, by omega⟩
            · rw [hrw]
              simpa using heq
            · intro j hj
              rw [hrw]
              match j with
              | 0 => simpa using hm_le
              | 1 => simpa using le_trans hxm hm_le
              | j + 2 =>
                  have hj' : j + 1 < (m :: xs').length := by
                    simp only [List.length_cons] at hj ⊢
                    omega
                  simpa using hmax (j + 1) hj'
        | s + 1 =>
            have hm_lt : f m < f (pyMaxBy f m xs') := by
              have := hfirst 0 (by omega)
              simpa using this
            refine ⟨s + 2, ?_, ?_, ?_, ?_⟩
            · simp only [List.length_cons] at hi' ⊢
              omega
            · rw [hrw]
              simpa using heq
            · intro j hj
              rw [hrw]
              match j with
              | 0 => simpa using hm_le
              | 1 => simpa using le_trans hxm hm_le
              | j + 2 =>
                  have hj' : j + 1 < (m :: xs').length := by
                    simp only [List.length_cons] at hj ⊢
                    omega
                  simpa using hmax (j + 1) hj'
            · intro j hj
              rw [hrw]
              match j with
              | 0 => simpa using hm_lt
              | 1 => simpa using lt_of_le_of_lt hxm hm_lt
              | j + 2 =>
                  have hj' : j + 1 < s + 1 := by omega
                  simpa using hfirst (j + 1) hj'

theorem argmaxIdx_first [LinearOrder α] [Inhabited α] (l : List α) (d : α) (h : l ≠ []) :
    ∀ j, j < argmaxIdx l → l.getD j d < l.getD (argmaxIdx l) d := by
  match l with
  | [x] => intro j hj; simp [argmaxIdx] at hj
  | x :: y :: ys =>
      intro j hj
      have ih := argmaxIdx_first (y :: ys) d (by simp)
      have hlt := argmaxIdx_lt_length (y :: ys) (by simp)
      have h2 : (y :: ys).getD (argmaxIdx (y :: ys)) d = (y :: ys).getD (argmaxIdx (y :: ys)) y :=
        getD_indep _ _ hlt d y
      rw [argmaxIdx_cons₂] at hj ⊢
      by_cases hc : (y :: ys).getD (argmaxIdx (y :: ys)) y ≤ x
      · rw [if_pos hc] at hj
        omega
      · rw [if_neg hc] at hj ⊢
        push_neg at hc
        match j with
        | 0 =>
            simp only [List.getD_cons_zero, List.getD_cons_succ]
            exact lt_of_lt_of_eq hc h2.symm
        | j + 1 =>
            have hj' : j < argmaxIdx (y :: ys) := Nat.lt_of_succ_lt_succ hj
            simpa using ih j hj'

/-! ## §8 The claims -/

/-- Claim C1: with the salience-product policy (`score = area * max(conf, eps)`,
`eps = 0.01`) on masks of areas {10, 50, 30} and confidences {0.9, 0.1, 0.9},
the selector returns index 2, the area-30 mask; the source selector
`_pick_most_salient_instance` (which scores `area * conf`) picks the same
index on this input. -/
theorem C1_salience_product_selects_index2 :
    CropYoloPy.pickMostSalientInstance yoloR1 = Except.ok 2 ∧
    specSalienceSelect (1/100) [10, 50, 30] [9/10, 1/10, 9/10] = 2 := by
  constructor
  · norm_num [CropYoloPy.pickMostSalientInstance, yoloR1, mask10, mask50, mask30,
      CropYoloPy.maskSum, argmaxIdx, List.sum_replicate]
  · norm_num [specSalienceSelect, argmaxIdx]

/-- Claim C4, counterexample: the mask value 128 is strictly greater than 50%
of the 0..255 value range (127.5), yet `_segment_to_rgba_png` binarizes it to
fully transparent (0), not fully opaque (255). -/
theorem C4_counterexample_value128 :
    (255 : ℚ) / 2 < 128 ∧ CropYoloFn.binarize128 128 = 0 := by
  exact ⟨by norm_num, rfl⟩

/-- Claim C4, amended: in `_segment_to_rgba_png` a (resized, 0..255) mask value
maps to opaque 255 exactly when it strictly exceeds 128 — so 128 itself maps to
0; in `_make_rgba_cutout` a soft float value maps to 255 exactly when it
strictly exceeds 0.5 (50% of its 0..1 range); on both binarizing paths the
produced alpha channel contains only the values 0 and 255. -/
theorem C4_amended_binarization :
    (∀ v : Nat, (CropYoloFn.binarize128 v = 255 ↔ 128 < v) ∧
      (CropYoloFn.binarize128 v = 0 ∨ CropYoloFn.binarize128 v = 255)) ∧
    (∀ q : ℚ, (CropYoloPy.binarize05 q = 255 ↔ 1/2 < q) ∧
      (CropYoloPy.binarize05 q = 0 ∨ CropYoloPy.binarize05 q = 255)) ∧
    (∀ (rs : CropYoloFn.Resample) (img : RGBImage) (r0 : CropYoloFn.YoloR0)
       (out : RGBAImage), CropYoloFn.segmentToRgbaPng rs img r0 = Except.ok out →
       ∀ x y, (out.px x y).a = 0 ∨ (out.px x y).a = 255) ∧
    (∀ (img : RGBImage) (v : Nat → Nat → ℚ) (x y : Nat),
       ((CropYoloPy.makeRgbaCutout img (CropYoloPy.NpMask.float v)).px x y).a = 0 ∨
       ((CropYoloPy.makeRgbaCutout img (CropYoloPy.NpMask.float v)).px x y).a = 255) := by
  refine ⟨?_, ?_, ?_, ?_⟩
  · intro v
    constructor
    · unfold CropYoloFn.binarize128
      split <;> simp_all
    · unfold CropYoloFn.binarize128
      split <;> simp
  · intro q
    constructor
    · unfold CropYoloPy.binarize05
      split <;> simp_all
    · unfold CropYoloPy.binarize05
      split <;> simp
  · intro rs img r0 out h x y
    unfold CropYoloFn.segmentToRgbaPng at h
    rcases r0 with ⟨masks, confs⟩
    match masks, confs with
    | none, _ =>
        simp only at h
        cases h
        simp [RGBImage.convertRGBA]
    | some ms, none =>
        simp only at h
        cases h
        simp [RGBImage.convertRGBA]
    | some ms, some cs =>
        simp only at h
        split at h
        · cases h
          simp [RGBImage.convertRGBA]
        · split at h
          · cases h
          · cases h
            simp only
            unfold CropYoloFn.binarize128
            split <;> simp
  · intro img v x y
    simp only [CropYoloPy.makeRgbaCutout, CropYoloPy.NpMask.toU8, CropYoloPy.binarize05]
    split <;> simp

/-- Claim C4 witness for the amended claim's conditional part: on a concrete
no-detection invocation, `_segment_to_rgba_png` succeeds and every alpha value
of its output is 0 or 255. -/
theorem C4_amended_binarization_witness :
    ∀ x y, (((img1.convertRGBA)).px x y).a = 0 ∨ (((img1.convertRGBA)).px x y).a = 255 :=
  C4_amended_binarization.2.2.1 rsFnZero img1 fnR0None img1.convertRGBA rfl

/-- Claim C7: `_put_to_s3` of the CropYOLO proxy variant always presigns with
`ExpiresIn = 3600`, whatever `PRESIGN_EXPIRES` is configured; with
`PRESIGN_EXPIRES = 600` the call still carries 3600, not 600. -/
theorem C7_presign_expiry_hardcoded :
    (∀ (env : CropYoloFn.Env) (body : RGBAImage) (b k : String),
        (CropYoloFn.putToS3 env body b k).2 =
          [S3Call.put b k body, S3Call.presign b k 3600]) ∧
    (CropYoloFn.putToS3 ⟨600, ""⟩ img1.convertRGBA "bkt" "k").2.getLast? =
      some (S3Call.presign "bkt" "k" 3600) ∧
    (600 : Nat) ≠ 3600 := by
  refine ⟨fun env body b k => rfl, rfl, by omega⟩

/-- Claim C5: on every non-empty score list the selectors return the lowest
index among the tied maxima — `argmaxIdx` (the `np.argmax`/`torch.argmax`
selection of both CropYOLO variants) returns an in-range index whose score
dominates every element and strictly dominates every earlier element, and
`_pick_largest_mask` (Python `max` by area) returns the segmentation of a mask
at such an index.  Selection is a pure function of the list: never
randomized. -/
theorem C5_ties_broken_by_first_index :
    (∀ (scores : List ℚ) (d : ℚ), scores ≠ [] →
      argmaxIdx scores < scores.length ∧
      (∀ j, j < scores.length → scores.getD j d ≤ scores.getD (argmaxIdx scores) d) ∧
      (∀ j, j < argmaxIdx scores → scores.getD j d < scores.getD (argmaxIdx scores) d)) ∧
    (∀ (masks : List CropSam2.SamMask) (dm : CropSam2.SamMask) (seg : List (List Bool)),
      CropSam2.pickLargestMask masks = Except.ok seg →
      ∃ i, i < masks.length ∧ (masks.getD i dm).segmentation = some seg ∧
        (∀ j, j < masks.length →
          CropSam2.area_of (masks.getD j dm) ≤ CropSam2.area_of (masks.getD i dm)) ∧
        (∀ j, j < i →
          CropSam2.area_of (masks.getD j dm) < CropSam2.area_of (masks.getD i dm))) := by
  constructor
  · intro scores d h
    exact ⟨argmaxIdx_lt_length scores h, argmaxIdx_getD_max scores d h,
      argmaxIdx_first scores d h⟩
  · intro masks dm seg h
    match masks with
    | [] => simp [CropSam2.pickLargestMask] at h
    | m :: ms =>
        obtain ⟨i, hi, heq, hmax, hfirst⟩ := pyMaxBy_spec CropSam2.area_of dm ms m
        simp only [CropSam2.pickLargestMask] at h
        split at h
        · cases h
        · next hseg =>
            cases h
            rw [heq] at hseg hmax hfirst
            exact ⟨i, hi, hseg, hmax, hfirst⟩

/-- Claim C5 witness: a two-element tie on scores picks index 0, and a
two-mask area tie picks the first mask's segmentation. -/
theorem C5_ties_broken_by_first_index_witness :
    (argmaxIdx [(5 : ℚ), 5] < ([(5 : ℚ), 5]).length ∧
      (∀ j, j < ([(5 : ℚ), 5]).length →
        ([(5 : ℚ), 5]).getD j 0 ≤ ([(5 : ℚ), 5]).getD (argmaxIdx [(5 : ℚ), 5]) 0) ∧
      (∀ j, j < argmaxIdx [(5 : ℚ), 5] →
        ([(5 : ℚ), 5]).getD j 0 < ([(5 : ℚ), 5]).getD (argmaxIdx [(5 : ℚ), 5]) 0)) ∧
    (∃ i, i < ([samTie1, samTie2] : List CropSam2.SamMask).length ∧
      (([samTie1, samTie2] : List CropSam2.SamMask).getD i samTie2).segmentation =
        some [[true]] ∧
      (∀ j, j < ([samTie1, samTie2] : List CropSam2.SamMask).length →
        CropSam2.area_of (([samTie1, samTie2] : List CropSam2.SamMask).getD j samTie2) ≤
          CropSam2.area_of (([samTie1, samTie2] : List CropSam2.SamMask).getD i samTie2)) ∧
      (∀ j, j < i →
        CropSam2.area_of (([samTie1, samTie2] : List CropSam2.SamMask).getD j samTie2) <
          CropSam2.area_of (([samTie1, samTie2] : List CropSam2.SamMask).getD i samTie2))) :=
  ⟨C5_ties_broken_by_first_index.1 [(5 : ℚ), 5] 0 (by simp),
   C5_ties_broken_by_first_index.2 [samTie1, samTie2] samTie2 [[true]] (by rfl)⟩

/-- Claim C3: both compositors produce an output with exactly the source
image's width and height, whose R, G and B channels are pixel-for-pixel the
source's; only the alpha channel depends on the mask (for any resampling
behaviour and any mask resolution). -/
theorem C3_compositor_preserves_frame :
    (∀ (rs : CropSam2.ResampleNearest) (img : RGBImage) (mask : List (List Bool)),
      (CropSam2.applyAlphaCutout rs img mask).width = img.width ∧
      (CropSam2.applyAlphaCutout rs img mask).height = img.height ∧
      (∀ x y, ((CropSam2.applyAlphaCutout rs img mask).px x y).r = (img.px x y).r ∧
        ((CropSam2.applyAlphaCutout rs img mask).px x y).g = (img.px x y).g ∧
        ((CropSam2.applyAlphaCutout rs img mask).px x y).b = (img.px x y).b)) ∧
    (∀ (rs : CropYoloFn.Resample) (img : RGBImage) (r0 : CropYoloFn.YoloR0)
      (out : RGBAImage), CropYoloFn.segmentToRgbaPng rs img r0 = Except.ok out →
      out.width = img.width ∧ out.height = img.height ∧
      (∀ x y, (out.px x y).r = (img.px x y).r ∧ (out.px x y).g = (img.px x y).g ∧
        (out.px x y).b = (img.px x y).b)) := by
  constructor
  · exact fun rs img mask => ⟨rfl, rfl, fun x y => ⟨rfl, rfl, rfl⟩⟩
  · intro rs img r0 out h
    unfold CropYoloFn.segmentToRgbaPng at h
    rcases r0 with ⟨masks, confs⟩
    match masks, confs with
    | none, _ =>
        simp only at h
        cases h
        exact ⟨rfl, rfl, fun x y => ⟨rfl, rfl, rfl⟩⟩
    | some ms, none =>
        simp only at h
        cases h
        exact ⟨rfl, rfl, fun x y => ⟨rfl, rfl, rfl⟩⟩
    | some ms, some cs =>
        simp only at h
        split at h
        · cases h
          exact ⟨rfl, rfl, fun x y => ⟨rfl, rfl, rfl⟩⟩
        · split at h
          · cases h
          · cases h
            exact ⟨rfl, rfl, fun x y => ⟨rfl, rfl, rfl⟩⟩

/-- Claim C3 witness: the no-detection pass-through output on a concrete 2×2
image has the source's dimensions and RGB channels. -/
theorem C3_compositor_preserves_frame_witness :
    img1.convertRGBA.width = img1.width ∧ img1.convertRGBA.height = img1.height ∧
    (∀ x y, (img1.convertRGBA.px x y).r = (img1.px x y).r ∧
      (img1.convertRGBA.px x y).g = (img1.px x y).g ∧
      (img1.convertRGBA.px x y).b = (img1.px x y).b) :=
  C3_compositor_preserves_frame.2 rsFnZero img1 fnR0None img1.convertRGBA rfl

/-- Claim C10: in the detection+segmentation proxy variant, when the detector
reports no masks, no boxes, or zero boxes, and no storage key was requested,
the handler answers status 200 with the original image as a fully opaque RGBA
PNG: alpha 255 everywhere, RGB and dimensions unchanged. -/
theorem C10_no_detection_opaque_passthrough :
    ∀ (env : CropYoloFn.Env) (ev : CropYoloFn.Event) (rs : CropYoloFn.Resample)
      (o : CropYoloFn.Oracle) (img : RGBImage) (r0 : CropYoloFn.YoloR0),
      o.readRequest = Except.ok none → o.decode = Except.ok img →
      o.inference = Except.ok r0 →
      (r0.masks = none ∨ r0.confs = none ∨ r0.confs = some []) →
      (CropYoloFn.lambda_handler env ev rs o).1.statusCode = 200 ∧
      (CropYoloFn.lambda_handler env ev rs o).1.body =
        CropYoloFn.Body.png img.convertRGBA ∧
      img.convertRGBA.width = img.width ∧ img.convertRGBA.height = img.height ∧
      (∀ x y, (img.convertRGBA.px x y).a = 255 ∧
        (img.convertRGBA.px x y).r = (img.px x y).r ∧
        (img.convertRGBA.px x y).g = (img.px x y).g ∧
        (img.convertRGBA.px x y).b = (img.px x y).b) := by
  intro env ev rs o img r0 hread hdec hinf hdet
  have hseg : CropYoloFn.segmentToRgbaPng rs img r0 = Except.ok img.convertRGBA := by
    rcases r0 with ⟨masks, confs⟩
    rcases hdet with h | h | h
    · simp only at h
      subst h
      rfl
    · simp only at h
      subst h
      cases masks <;> rfl
    · simp only at h
      subst h
      cases masks <;> rfl
  refine ⟨?_, ?_, rfl, rfl, fun x y => ⟨rfl, rfl, rfl, rfl⟩⟩
  · simp only [CropYoloFn.lambda_handler, hread, hdec, hinf, hseg]
    rfl
  · simp only [CropYoloFn.lambda_handler, hread, hdec, hinf, hseg]
    rfl

/-- Claim C10 witness: a concrete no-detection invocation on the 2×2 image. -/
theorem C10_no_detection_opaque_passthrough_witness :
    (CropYoloFn.lambda_handler fnEnv1 fnEv1 rsFnZero fnOracleNoDet).1.statusCode = 200 ∧
    (CropYoloFn.lambda_handler fnEnv1 fnEv1 rsFnZero fnOracleNoDet).1.body =
      CropYoloFn.Body.png img1.convertRGBA ∧
    img1.convertRGBA.width = img1.width ∧ img1.convertRGBA.height = img1.height ∧
    (∀ x y, (img1.convertRGBA.px x y).a = 255 ∧
      (img1.convertRGBA.px x y).r = (img1.px x y).r ∧
      (img1.convertRGBA.px x y).g = (img1.px x y).g ∧
      (img1.convertRGBA.px x y).b = (img1.px x y).b) :=
  C10_no_detection_opaque_passthrough fnEnv1 fnEv1 rsFnZero fnOracleNoDet img1 fnR0None
    rfl rfl rfl (Or.inl rfl)

/-- Claim C2, counterexample: with an empty mask list the SAM2 selector raises
(`Except.error`, the embedded `ValueError`) instead of returning a NotFound
value, and the handler converts it into a status-500 response — the same
status code a hard server failure (here: a storage write failure) produces,
so the outcome IS conflated with server errors. -/
theorem C2_counterexample_empty_masks_conflated_with_500 :
    CropSam2.pickLargestMask [] =
      Except.error "No masks generated. Try another image or increase memory/timeout." ∧
    (CropSam2.lambda_handler samEnv1 samEv1 rsSamZero samOracleEmpty).1 =
      ⟨500, CropSam2.Body.err
        "No masks generated. Try another image or increase memory/timeout."⟩ ∧
    (CropSam2.lambda_handler samEnv1 samEv1 rsSamZero samOracleStorageFail).1.statusCode =
      (CropSam2.lambda_handler samEnv1 samEv1 rsSamZero samOracleEmpty).1.statusCode := by
  exact ⟨rfl, rfl, rfl⟩

/-- Claim C2, amended: when the segmentation backend produces an empty mask
list, no exception escapes the invocation boundary — the selector's
`ValueError` is caught and the handler returns a structured response — but
that response is status 500 with an `{"error": ...}` body, the generic
server-error shape, not a distinguishable NotFound outcome; nothing is
written to storage. -/
theorem C2_amended_empty_masks_give_500_response :
    ∀ (env : CropSam2.Env) (ev : CropSam2.Event) (rs : CropSam2.ResampleNearest)
      (o : CropSam2.Oracle) (img : RGBImage),
      o.loadModel = Except.ok () → ev.image_url.getD "" ≠ "" →
      orDefault ev.bucket env.defaultBucket ≠ "" →
      o.fetch = Except.ok img → o.generate = Except.ok [] →
      CropSam2.lambda_handler env ev rs o =
        (⟨500, CropSam2.Body.err
            "No masks generated. Try another image or increase memory/timeout."⟩, []) := by
  intro env ev rs o img hload hurl hbucket hfetch hgen
  simp only [CropSam2.lambda_handler, hload, hfetch, hgen]
  rw [if_neg hurl, if_neg hbucket]
  rfl

/-- Claim C2 witness: amended behaviour on the concrete empty-mask
invocation. -/
theorem C2_amended_empty_masks_give_500_response_witness :
    samEv1.image_url.getD "" ≠ "" ∧
    CropSam2.lambda_handler samEnv1 samEv1 rsSamZero samOracleEmpty =
      (⟨500, CropSam2.Body.err
          "No masks generated. Try another image or increase memory/timeout."⟩, []) :=
  ⟨by decide,
   C2_amended_empty_masks_give_500_response samEnv1 samEv1 rsSamZero samOracleEmpty img1
     rfl (by decide) (by decide) rfl rfl⟩

set_option maxRecDepth 10000 in
/-- Claim C6, counterexample: two independent CropObject invocations (they
differ — their rembg outputs are the blobs 1 and 2) on the same `image_url`,
neither supplying any output key (the variant accepts none), both write to the
identical storage key `removed/cat-89f18b17905c.png`: the second run silently
overwrites the first, because `_make_output_key` is a pure hash of the URL
with no random/unique component. -/
theorem C6_counterexample_same_url_same_key :
    objOracleA.rembg ≠ objOracleB.rembg ∧
    (CropObject.lambda_handler objEnv1 objOracleA).2 =
      [S3Call.put "outbkt" "removed/cat-89f18b17905c.png" 1] ∧
    (CropObject.lambda_handler objEnv1 objOracleB).2 =
      [S3Call.put "outbkt" "removed/cat-89f18b17905c.png" 2] := by
  refine ⟨by simp [objOracleA, objOracleB], rfl, rfl⟩

/-- Claim C6, amended: auto-generated keys are collision-free in the
CropYOLO variants, whose `f"{S3_PREFIX}{uuid4().hex}.png"` keys are injective
in the drawn uuid (distinct uuids give distinct keys); in the CropObject
variant, however, the key written is a deterministic function of `image_url`
alone (`_make_output_key`), so re-running with the same URL reuses —
and overwrites — the same key, with no way for the caller to request
otherwise. -/
theorem C6_amended_key_generation :
    (∀ pfx u1 u2 : String, CropYoloPy.autoKey pfx u1 = CropYoloPy.autoKey pfx u2 →
      u1 = u2) ∧
    (∀ (β : Type) (env : CropObject.Env) (o : CropObject.Oracle β) (url : String)
      (png : β),
      o.parse = Except.ok ⟨some url⟩ → url ≠ "" →
      o.download = Except.ok () → o.rembg = Except.ok png →
      (CropObject.lambda_handler env o).2.head? =
        some (S3Call.put env.outputBucket
          (CropObject.makeOutputKey env.outputPfx url) png)) := by
  constructor
  · intro pfx u1 u2 h
    have h1 : (pfx.data ++ u1.data) ++ ".png".data = (pfx.data ++ u2.data) ++ ".png".data := by
      simpa [CropYoloPy.autoKey] using congrArg String.data h
    have h2 : u1.data = u2.data :=
      List.append_cancel_left (List.append_cancel_right h1)
    cases u1
    cases u2
    exact congrArg String.mk (by simpa using h2)
  · intro β env o url png hparse hurl hdl hrembg
    simp only [CropObject.lambda_handler, hparse, hdl, hrembg, Option.getD_some]
    rw [if_neg hurl]
    match o.putResult with
    | Except.error e => rfl
    | Except.ok _ =>
        simp only
        by_cases hb : env.returnPresigned <;> simp [hb]

set_option maxRecDepth 10000 in
/-- Claim C6 witness: the amended statements applied concretely — equal uuid
strings give the equal key, and the concrete run `objOracleA` writes first to
the URL-derived key. -/
theorem C6_amended_key_generation_witness :
    ("ab" : String) = "ab" ∧
    (CropObject.lambda_handler objEnv1 objOracleA).2.head? =
      some (S3Call.put objEnv1.outputBucket
        (CropObject.makeOutputKey objEnv1.outputPfx "https://example.com/cat.png") 1) :=
  ⟨C6_amended_key_generation.1 "cutouts/" "ab" "ab" rfl,
   C6_amended_key_generation.2 Nat objEnv1 objOracleA "https://example.com/cat.png" 1
     rfl (by decide) rfl rfl⟩

/-- Claim C8, counterexample: a connection-level fetch failure (connection
refused — a network failure the claim covers) produces status 500
`internal_error`, exactly the same status and error kind as a decode failure
on garbage bytes; only non-2xx HTTP statuses get the distinct 502. -/
theorem C8_counterexample_connection_failure_not_distinct :
    (CropObject.lambda_handler objEnv1 objOracleConnRefused).1 =
      ⟨500, CropObject.Body.err "internal_error" "connection refused"⟩ ∧
    (CropObject.lambda_handler objEnv1 objOracleBadBytes).1 =
      ⟨500, CropObject.Body.err "internal_error" "cannot identify image file"⟩ ∧
    (CropObject.lambda_handler objEnv1 objOracleConnRefused).1.statusCode =
      (CropObject.lambda_handler objEnv1 objOracleBadBytes).1.statusCode := by
  exact ⟨rfl, rfl, rfl⟩

/-- Claim C8, amended: in the CropObject variant a fetch failure is dispatched
through the two `except` clauses — a non-2xx HTTP status (`HTTPError`) yields
502 `failed_to_fetch_image`, which IS distinct from the 500 `internal_error`
of a decode failure; but a connection-level failure is not an `HTTPError` and
also yields 500 `internal_error`, indistinguishable from decode errors. -/
theorem C8_amended_fetch_error_statuses :
    (∀ (β : Type) (env : CropObject.Env) (o : CropObject.Oracle β)
      (p : CropObject.Payload) (e : CropObject.PyExc),
      o.parse = Except.ok p → p.image_url.getD "" ≠ "" → o.download = Except.error e →
      (CropObject.lambda_handler env o).1 = CropObject.excResponse e) ∧
    (∀ m, CropObject.excResponse (CropObject.PyExc.httpError m) =
      ⟨502, CropObject.Body.err "failed_to_fetch_image" m⟩) ∧
    (∀ m, CropObject.excResponse (CropObject.PyExc.connectionError m) =
      ⟨500, CropObject.Body.err "internal_error" m⟩) ∧
    (∀ m, CropObject.excResponse (CropObject.PyExc.decodeError m) =
      ⟨500, CropObject.Body.err "internal_error" m⟩) ∧
    (502 : Nat) ≠ 500 := by
  refine ⟨?_, fun m => rfl, fun m => rfl, fun m => rfl, by omega⟩
  intro β env o p e hparse hurl hdl
  simp only [CropObject.lambda_handler, hparse, hdl]
  rw [if_neg hurl]

/-- Claim C8 witness: the amended dispatch applied to a concrete 404
invocation: the handler returns the 502 `failed_to_fetch_image` response. -/
theorem C8_amended_fetch_error_statuses_witness :
    (CropObject.lambda_handler objEnv1 objOracleHttp404).1 =
      CropObject.excResponse
        (CropObject.PyExc.httpError "404 Client Error: Not Found") :=
  C8_amended_fetch_error_statuses.1 Nat objEnv1 objOracleHttp404
    ⟨some "https://example.com/cat.png"⟩ (CropObject.PyExc.httpError "404 Client Error: Not Found")
    rfl (by decide) rfl

/-- Claim C9: every invocation of every variant returns a structured response:
whatever the event and whatever the outcome of every external step (parse,
fetch, decode, inference, selection, storage), the handler yields a response
value whose status code lies in the variant's documented set, with an error
body on the non-success statuses — no exception escapes the boundary. -/
theorem C9_every_invocation_returns_structured_response :
    (∀ (env : CropYoloPy.Env) (ev : CropYoloPy.Event) (o : CropYoloPy.Oracle),
      (CropYoloPy.lambda_handler env ev o).1.statusCode = 200 ∨
      ((CropYoloPy.lambda_handler env ev o).1.statusCode = 500 ∧
        ∃ m, (CropYoloPy.lambda_handler env ev o).1.body = CropYoloPy.Body.err m)) ∧
    (∀ (env : CropYoloFn.Env) (ev : CropYoloFn.Event) (rs : CropYoloFn.Resample)
      (o : CropYoloFn.Oracle),
      (CropYoloFn.lambda_handler env ev rs o).1.statusCode = 200 ∨
      ((CropYoloFn.lambda_handler env ev rs o).1.statusCode = 400 ∧
        ∃ m, (CropYoloFn.lambda_handler env ev rs o).1.body = CropYoloFn.Body.errJson m)) ∧
    (∀ (env : CropSam2.Env) (ev : CropSam2.Event) (rs : CropSam2.ResampleNearest)
      (o : CropSam2.Oracle),
      (CropSam2.lambda_handler env ev rs o).1.statusCode = 200 ∨
      (((CropSam2.lambda_handler env ev rs o).1.statusCode = 400 ∨
        (CropSam2.lambda_handler env ev rs o).1.statusCode = 500) ∧
        ∃ m, (CropSam2.lambda_handler env ev rs o).1.body = CropSam2.Body.err m)) ∧
    (∀ (β : Type) (env : CropObject.Env) (o : CropObject.Oracle β),
      (CropObject.lambda_handler env o).1.statusCode = 200 ∨
      (CropObject.lambda_handler env o).1.statusCode = 400 ∨
      (((CropObject.lambda_handler env o).1.statusCode = 500 ∨
        (CropObject.lambda_handler env o).1.statusCode = 502) ∧
        ∃ k d, (CropObject.lambda_handler env o).1.body = CropObject.Body.err k d)) := by
  refine ⟨?_, ?_, ?_, ?_⟩
  · intro env ev o
    simp only [CropYoloPy.lambda_handler]
    repeat' split
    all_goals simp
  · intro env ev rs o
    simp only [CropYoloFn.lambda_handler]
    repeat' split
    all_goals simp
  · intro env ev rs o
    simp only [CropSam2.lambda_handler]
    repeat' split
    all_goals simp
  · intro β env o
    simp only [CropObject.lambda_handler]
    repeat' split
    all_goals simp [CropObject.excResponse]
    all_goals split
    all_goals simp [CropObject.PyExc.isHTTPError]

/-- Claim C10, counterexample: a zero-detection invocation is not always
answered with status 200 — when the request carries a storage key
(`s3Key = "out/key.png"`) but no bucket is configured, the handler raises and
returns a status-400 error response even though the detector result has
`masks = None`, refuting the claim's "whenever ... returns a success
response". -/
theorem C10_counterexample_no_detection_with_store_is_400 :
    fnR0None.masks = none ∧
    fnOracleNoDetStore.inference = Except.ok fnR0None ∧
    (CropYoloFn.lambda_handler fnEnv1 fnEv1 rsFnZero fnOracleNoDetStore).1.statusCode = 400 ∧
    (CropYoloFn.lambda_handler fnEnv1 fnEv1 rsFnZero fnOracleNoDetStore).1.body =
      CropYoloFn.Body.errJson "s3Key was provided but BUCKET_NAME or x-s3-bucket is missing" := by
  exact ⟨rfl, rfl, rfl, rfl⟩
